import Mathlib

/-!
Shallow embedding of the utterance-classification notebook
(src/sklearn.svm.LinearSVC.ipynb) and proofs about it.

The notebook defines two functions: train_linear_svc_model, which reads a JSON
list of labeled examples, splits it with train_test_split(random_state=0),
fits a CountVectorizer, a TfidfTransformer and a LinearSVC on the training
split, and pickles the fitted vectorizer and model to two fixed paths, all
inside a bare except that prints one generic message; and classify_utterance,
which unpickles both artifacts, transforms one utterance through the
vectorizer and returns the predicted label as a string, with no error
handling of its own.

Pickle, pandas and the sklearn estimators are third-party collaborators; the
spec directs that serialization be treated as an opaque symmetric collaborator,
and the numeric internals of the estimators (the real-valued idf logarithm and
the max-margin optimizer) are modelled by integer surrogates that keep every
structural property the claims use: which objects are fitted on which rows and
labels, which class list a model carries, that prediction is an argmax of
per-class linear scores over the class list, that unseen tokens contribute
nothing, and that the whole pipeline is a deterministic function of its inputs.
-/

namespace UtteranceSVC

/-- One element of the JSON training array: an intent label and an utterance. -/
structure TrainingExample where
  intent : String
  utterance : String
deriving DecidableEq

/-- Python exception kinds observable in the notebook, together with the two
typed errors the spec recommends (artifactLoadError, emptyDatasetError); the
code itself never raises the two recommended ones. -/
inductive PyError where
  | valueError
  | keyError
  | fileNotFoundError
  | osError
  | attributeError
  | artifactLoadError
  | emptyDatasetError
deriving DecidableEq

/-- The fitted CountVectorizer state: the vocabulary, a list of distinct
tokens, each position being that token column index. -/
structure Vectorizer where
  vocab : List String
deriving DecidableEq

/-- The fitted LinearSVC state: the class list and one weight vector per
class. -/
structure SVCModel where
  classes : List String
  weights : List (List Nat)
deriving DecidableEq

/-- A pickled object on disk: either a fitted vectorizer or a fitted model. -/
inductive Artifact where
  | vect (v : Vectorizer)
  | model (m : SVCModel)
deriving DecidableEq

/-- The file system visible to the notebook: pickled artifacts by path, plus
the set of paths on which a write raises OSError (modelling disk failure). -/
structure Store where
  files : List (String × Artifact)
  badPaths : List String
deriving DecidableEq

/-- pickle.load(open(p, ...)): returns the stored object, or raises
FileNotFoundError when no file exists at the path. -/
def Store.read (s : Store) (p : String) : Except PyError Artifact :=
  match s.files.find? (fun e => e.1 == p) with
  | some e => Except.ok e.2
  | none => Except.error PyError.fileNotFoundError

/-- pickle.dump(a, open(p, "wb")): overwrites the path with the object, or
raises OSError when the path is unwritable. -/
def Store.write (s : Store) (p : String) (a : Artifact) : Except PyError Store :=
  if p ∈ s.badPaths then Except.error PyError.osError
  else Except.ok ⟨(p, a) :: s.files, s.badPaths⟩

/-- ASCII lowercasing of one character, as the vectorizer applies before
tokenizing. -/
def lowerChar (c : Char) : Char :=
  if 'A' ≤ c ∧ c ≤ 'Z' then Char.ofNat (c.toNat + 32) else c

/-- A word character in the default token pattern of CountVectorizer. -/
def isWordChar (c : Char) : Bool :=
  c.isAlphanum || c == '_'

/-- The default CountVectorizer analyzer: lowercase the text and keep the
maximal runs of word characters of length at least two as tokens. -/
def tokenize (s : String) : List String :=
  (((s.data.map lowerChar).splitOnP (fun c => !(isWordChar c))).filter
    (fun t => 2 ≤ t.length)).map (fun t => String.mk t)

/-- The vocabulary a CountVectorizer fit builds: the distinct tokens of the
documents it is fitted on (the library also sorts them; ordering of the
columns is never used by the claims). -/
def buildVocab (docs : List String) : List String :=
  ((docs.map tokenize).flatten).dedup

/-- CountVectorizer.transform on a single document: the vector of raw counts
of each vocabulary token in the document. A token of the document that is not
in the vocabulary contributes to no coordinate. -/
def Vectorizer.transform (v : Vectorizer) (doc : String) : List Nat :=
  v.vocab.map (fun t => (tokenize doc).count t)

/-- CountVectorizer().fit_transform on the training utterances: builds the
vocabulary, raising ValueError on an empty vocabulary as the library does. -/
def countVectFit (docs : List String) : Except PyError Vectorizer :=
  if buildVocab docs = [] then Except.error PyError.valueError
  else Except.ok ⟨buildVocab docs⟩

/-- Number of rows whose j-th coordinate is nonzero (the document frequency of
column j). -/
def docFreq (rows : List (List Nat)) (j : Nat) : Nat :=
  rows.countP (fun r => r.getD j 0 != 0)

/-- Modelled from the spec: TfidfTransformer().fit_transform — "downweight
terms frequent across many examples, upweight terms distinctive to few". The
library idf uses a real logarithm; this model multiplies column j by the
integer surrogate (2 * (1 + n)) / (1 + docFreq j), likewise positive and
decreasing in the document frequency. No claim depends on the numeric values
of the weights. -/
def tfidfFitTransform (rows : List (List Nat)) : List (List Nat) :=
  let n := rows.length
  rows.map (fun r =>
    (List.range r.length).map (fun j =>
      r.getD j 0 * ((2 * (1 + n)) / (1 + docFreq rows j))))

/-- Dot product of two weight vectors. -/
def dot (a b : List Nat) : Nat := (a.zipWith (fun x y => x * y) b).sum

/-- Coordinatewise sum of two vectors. -/
def addVec (a b : List Nat) : List Nat := a.zipWith (fun x y => x + y) b

/-- Modelled from the spec: LinearSVC().fit — "a linear maximum-margin
classifier (one-vs-rest for more than 2 classes)" fitted on the weighted
feature rows and their labels. The library numeric optimizer is external; this
model gives class c the weight vector equal to the sum of the feature rows
labeled c, a linear one-vs-rest scorer. The structural facts the claims use —
the class list is exactly the distinct labels of the rows the model is fitted
on, prediction is an argmax of per-class linear scores over that class list,
and the fit is a deterministic function of its inputs — hold of the library
fit as well. Raises ValueError when fewer than two distinct classes are
present, as the library does. -/
def fitLinearSVC (dim : Nat) (rows : List (List Nat)) (ys : List String) :
    Except PyError SVCModel :=
  let cs := ys.dedup
  if cs.length < 2 then Except.error PyError.valueError
  else
    Except.ok ⟨cs, cs.map (fun c =>
      ((rows.zip ys).filter (fun p => p.2 == c)).foldl
        (fun acc p => addVec acc p.1) (List.replicate dim 0))⟩

/-- Keep the better of two scored labels; the incumbent wins ties, so the
earliest position wins overall, as the library argmax does. -/
def pickMax (best q : String × Nat) : String × Nat :=
  if best.2 < q.2 then q else best

/-- The label whose score is highest, earliest position winning ties. -/
def argmaxScore : List (String × Nat) → Option String
  | [] => none
  | p :: ps => some (ps.foldl pickMax p).1

/-- model.predict on one feature vector: the class with the highest linear
score. The error case arises only for a degenerate artifact with an empty
class list, which no fitted model has. -/
def SVCModel.predict (m : SVCModel) (x : List Nat) : Except PyError String :=
  match argmaxScore (m.classes.zip (m.weights.map (fun w => dot w x))) with
  | some c => Except.ok c
  | none => Except.error PyError.valueError

/-- The fixed path the vectorizer is pickled to. -/
def vectorizerFile : String := "model_vectorizer.pickle"

/-- The fixed path the model is pickled to. -/
def modelFile : String := "classification.model"

/-- classify_utterance(utterance, vectorizer_file, model_file): unpickle the
vectorizer, unpickle the model, transform the single utterance through the
vectorizer (the source predicts on the raw count vector; the tf-idf step used
at training time is not applied at inference), predict, and return the label
as a string. The function installs no exception handler: a load or predict
failure propagates to the caller, modelled by the Except.error outcome. -/
def classify_utterance (utterance vectorizer_file model_file : String)
    (s : Store) : Except PyError String :=
  match s.read vectorizer_file with
  | Except.error e => Except.error e
  | Except.ok a =>
    match s.read model_file with
    | Except.error e => Except.error e
    | Except.ok b =>
      match a, b with
      | Artifact.vect v, Artifact.model m => m.predict (v.transform utterance)
      | _, _ => Except.error PyError.attributeError

/-- Modelled from the spec: the seeded pseudo-random stream behind
train_test_split(..., random_state=0). The library draws from a seeded
Mersenne-Twister stream; this model draws from a seeded linear congruential
stream. Every claim uses only that the stream is a deterministic function of
the seed. -/
def lcgNext (s : Nat) : Nat := (1103515245 * s + 12345) % 2147483648

/-- Fisher-Yates style seeded shuffle: repeatedly pick the position given by
the stream and move that element to the front of the output. -/
def shuffleAux {α : Type} : Nat → Nat → List α → List α
  | _, _, [] => []
  | 0, _, l => l
  | fuel + 1, seed, x :: xs =>
    (x :: xs).get ⟨seed % (x :: xs).length, Nat.mod_lt seed (Nat.succ_pos xs.length)⟩ ::
      shuffleAux fuel (lcgNext seed) ((x :: xs).eraseIdx (seed % (x :: xs).length))

/-- The seeded shuffle of a whole list. -/
def shuffle {α : Type} (seed : Nat) (l : List α) : List α :=
  shuffleAux l.length (lcgNext seed) l

/-- train_test_split(X, y, random_state=seed) with the library default
held-out fraction 0.25: shuffle the rows with the seeded stream, the first
ceil(n/4) shuffled rows are the held-out set and the remaining rows the
training set. Returns (train, heldOut). -/
def trainTestSplit {α : Type} (seed : Nat) (l : List α) : List α × List α :=
  let nTest := (l.length + 3) / 4
  let p := shuffle seed l
  (p.drop nTest, p.take nTest)

/-- The outcome of pd.read_json on the caller-supplied file: either the file
fails to parse (malformed input) or it yields the list of examples. -/
inductive TrainInput where
  | malformed
  | data (d : List TrainingExample)

/-- The 75 percent training split the pipeline fits on. -/
def trainSplitOf (d : List TrainingExample) : List TrainingExample :=
  (trainTestSplit 0 d).1

/-- The vocabulary of the vectorizer fitted by a successful training run. -/
def fittedVocab (d : List TrainingExample) : List String :=
  buildVocab ((trainSplitOf d).map (fun e => e.utterance))

/-- Steps 1 to 4 of train_linear_svc_model, the pure part before the pickle
dumps: column access on the data frame (KeyError on an empty frame, as pandas
raises when the utterance column is missing), the seeded split (ValueError
when the training split would be empty, as the library raises), the
CountVectorizer fit, the tf-idf weighting, and the LinearSVC fit on the
weighted training rows and training labels. -/
def trainArtifacts (d : List TrainingExample) :
    Except PyError (Vectorizer × SVCModel) :=
  if d = [] then Except.error PyError.keyError
  else if trainSplitOf d = [] then Except.error PyError.valueError
  else
    match countVectFit ((trainSplitOf d).map (fun e => e.utterance)) with
    | Except.error e => Except.error e
    | Except.ok v =>
      match fitLinearSVC v.vocab.length
          (tfidfFitTransform (((trainSplitOf d).map (fun e => e.utterance)).map
            v.transform))
          ((trainSplitOf d).map (fun e => e.intent)) with
      | Except.error e => Except.error e
      | Except.ok m => Except.ok (v, m)

/-- The single generic message printed by the blanket except handler. -/
def trainingErrorMessage : String := "Error training classification model"

/-- The three lines printed on a successful run. -/
def successMessages : List String :=
  ["------LinearSVC CLASSIFICATION TRAINING COMPLETED------",
   "Vectorizer model saved to the current directory",
   "Classification model saved to the current directory"]

/-- The try body of train_linear_svc_model: fit everything, then dump the
vectorizer and then the model. The store is threaded through the two dumps, so
a failure of the second dump leaves the first artifact written (partial
artifacts persist). -/
def trainBody (inp : TrainInput) (s : Store) :
    Store × Except PyError (List String) :=
  match inp with
  | TrainInput.malformed => (s, Except.error PyError.valueError)
  | TrainInput.data d =>
    match trainArtifacts d with
    | Except.error e => (s, Except.error e)
    | Except.ok (v, m) =>
      match s.write vectorizerFile (Artifact.vect v) with
      | Except.error e => (s, Except.error e)
      | Except.ok s1 =>
        match s1.write modelFile (Artifact.model m) with
        | Except.error e => (s1, Except.error e)
        | Except.ok s2 => (s2, Except.ok successMessages)

/-- The observable outcome of one call of train_linear_svc_model: the file
system afterwards, the printed lines, and the Python return value. -/
structure TrainOutcome where
  store : Store
  printed : List String
  retval : Option Unit
deriving DecidableEq

/-- train_linear_svc_model(classification_training_data_json): run the body
under the bare except; any failure is swallowed and the one generic message is
printed. The function body has no return statement, so the Python return
value is None on every path. -/
def train_linear_svc_model (inp : TrainInput) (s : Store) : TrainOutcome :=
  match trainBody inp s with
  | (s2, Except.ok msgs) => ⟨s2, msgs, none⟩
  | (s2, Except.error _) => ⟨s2, [trainingErrorMessage], none⟩

/-- The seven labeled examples of classification_data.json as shown in the
notebook. -/
def observedData : List TrainingExample :=
  [⟨"greeting", "whats up"⟩,
   ⟨"book_appointment", "I am looking to book a haircut"⟩,
   ⟨"book_appointment", "help me to set up a haircut with usual stylist"⟩,
   ⟨"book_appointment", "is tomorrow at 10am ok too book a simple manicure"⟩,
   ⟨"business_hours", "do you open for business on weekends"⟩,
   ⟨"business_hours", "when are you closing?"⟩,
   ⟨"business_hours", "when are you open for business"⟩]

/-- A file system with no files and no failing paths. -/
def emptyStore : Store := ⟨[], []⟩

/-- A file system already holding an unrelated artifact, used to compare two
training runs started from different disk states. -/
def junkStore : Store := ⟨[("junk", Artifact.vect ⟨["x0"]⟩)], []⟩

/-- An input of eight examples (the observed seven plus one more greeting),
whose size is divisible by four, so the seeded split is exactly 75 percent
against 25 percent on it. -/
def eightData : List TrainingExample :=
  observedData ++ [⟨"greeting", "hello there"⟩]

/-- An input on which training succeeds while the only example of the refund
intent lands in the held-out quarter of the seeded split, so the fitted model
never carries that intent. -/
def lostIntentData : List TrainingExample :=
  [⟨"greeting", "hello there"⟩,
   ⟨"refund", "i want my money back"⟩,
   ⟨"greeting", "good morning"⟩,
   ⟨"greeting", "hi again"⟩,
   ⟨"business_hours", "when are you open"⟩,
   ⟨"business_hours", "when do you close"⟩,
   ⟨"greeting", "hey you"⟩,
   ⟨"business_hours", "are you open today"⟩]

/-! Helper lemmas about the embedded operations. -/

/-- Picking position i and the remainder is a permutation of the list. -/
theorem cons_eraseIdx_perm {α : Type} (l : List α) (i : Nat) (h : i < l.length) :
    (l.get ⟨i, h⟩ :: l.eraseIdx i).Perm l := by
  induction l generalizing i with
  | nil => simp at h
  | cons a t ih =>
    cases i with
    | zero => exact List.Perm.refl _
    | succ j =>
      have hj : j < t.length := Nat.lt_of_succ_lt_succ h
      exact (List.Perm.swap a _ _).trans ((ih j hj).cons a)

/-- The seeded shuffle permutes its input. -/
theorem shuffleAux_perm {α : Type} :
    ∀ (fuel seed : Nat) (l : List α), (shuffleAux fuel seed l).Perm l := by
  intro fuel
  induction fuel with
  | zero =>
    intro seed l
    cases l with
    | nil => exact List.Perm.refl _
    | cons x xs => exact List.Perm.refl _
  | succ n ih =>
    intro seed l
    cases l with
    | nil => exact List.Perm.refl _
    | cons x xs =>
      exact ((ih (lcgNext seed) _).cons _).trans
        (cons_eraseIdx_perm (x :: xs) (seed % (x :: xs).length)
          (Nat.mod_lt seed (Nat.succ_pos xs.length)))

/-- The seeded shuffle permutes its input. -/
theorem shuffle_perm {α : Type} (seed : Nat) (l : List α) :
    (shuffle seed l).Perm l :=
  shuffleAux_perm l.length (lcgNext seed) l

/-- The two halves returned by the split are the drop and the take of the
shuffled list. -/
theorem trainTestSplit_eq {α : Type} (seed : Nat) (l : List α) :
    trainTestSplit seed l =
      ((shuffle seed l).drop ((l.length + 3) / 4),
       (shuffle seed l).take ((l.length + 3) / 4)) := rfl

/-- Train part and held-out part together permute the input. -/
theorem trainTestSplit_append_perm {α : Type} (seed : Nat) (l : List α) :
    ((trainTestSplit seed l).1 ++ (trainTestSplit seed l).2).Perm l := by
  rw [trainTestSplit_eq]
  dsimp only
  refine List.Perm.trans List.perm_append_comm ?_
  rw [List.take_append_drop]
  exact shuffle_perm seed l

/-- Every example of the training split is an example of the input. -/
theorem mem_trainSplitOf {d : List TrainingExample} {e : TrainingExample}
    (h : e ∈ trainSplitOf d) : e ∈ d :=
  (trainTestSplit_append_perm 0 d).subset (List.mem_append_left _ h)

/-- A successful write produces the store with the new file in front. -/
theorem write_ok {s : Store} {p : String} {a : Artifact} {s2 : Store}
    (h : s.write p a = Except.ok s2) :
    s2 = ⟨(p, a) :: s.files, s.badPaths⟩ := by
  unfold Store.write at h
  by_cases hp : p ∈ s.badPaths
  · simp [hp] at h
  · simp [hp] at h
    exact h.symm

/-- Reading a path just written returns the object written. -/
theorem read_after_write_same {s : Store} {p : String} {a : Artifact}
    {s2 : Store} (h : s.write p a = Except.ok s2) :
    s2.read p = Except.ok a := by
  rw [write_ok h]
  unfold Store.read
  rw [List.find?_cons_of_pos _ (by simp)]

/-- Reading a different path after a write sees the earlier store. -/
theorem read_after_write_other {s : Store} {p q : String} {a : Artifact}
    {s2 : Store} (h : s.write p a = Except.ok s2)
    (hne : (p == q) = false) : s2.read q = s.read q := by
  rw [write_ok h]
  unfold Store.read
  rw [List.find?_cons_of_neg _ (by simp [hne])]

/-- The best-scored pair kept by the fold is the accumulator or a list
element. -/
theorem pickFoldl_mem (ps : List (String × Nat)) (acc : String × Nat) :
    ps.foldl pickMax acc = acc ∨ ps.foldl pickMax acc ∈ ps := by
  induction ps generalizing acc with
  | nil => exact Or.inl rfl
  | cons q ps ih =>
    simp only [List.foldl_cons]
    rcases ih (pickMax acc q) with h | h
    · rw [h]
      unfold pickMax
      by_cases hq : acc.2 < q.2
      · simp [hq]
      · simp [hq]
    · exact Or.inr (List.mem_cons_of_mem _ h)

/-- The argmax label is the label of some scored pair of the list. -/
theorem argmaxScore_mem {l : List (String × Nat)} {c : String}
    (h : argmaxScore l = some c) : ∃ n, (c, n) ∈ l := by
  cases l with
  | nil => cases h
  | cons p ps =>
    unfold argmaxScore at h
    injection h with h
    refine ⟨(ps.foldl pickMax p).2, ?_⟩
    rw [← h]
    rcases pickFoldl_mem ps p with h2 | h2
    · rw [show ((ps.foldl pickMax p).1, (ps.foldl pickMax p).2) =
        ps.foldl pickMax p from rfl, h2]
      exact List.mem_cons_self _ _
    · rw [show ((ps.foldl pickMax p).1, (ps.foldl pickMax p).2) =
        ps.foldl pickMax p from rfl]
      exact List.mem_cons_of_mem _ h2

/-- Any label a model predicts is a member of its class list. -/
theorem predict_mem {m : SVCModel} {x : List Nat} {c : String}
    (h : m.predict x = Except.ok c) : c ∈ m.classes := by
  unfold SVCModel.predict at h
  cases ha : argmaxScore (m.classes.zip (m.weights.map (fun w => dot w x))) with
  | none => rw [ha] at h; cases h
  | some c2 =>
    rw [ha] at h
    injection h with h
    subst h
    obtain ⟨n, hmem⟩ := argmaxScore_mem ha
    exact (List.of_mem_zip hmem).1

/-- A model with classes and weights predicts some member of its class
list on every input vector. -/
theorem predict_ok_mem (m : SVCModel) (x : List Nat)
    (hne : m.classes ≠ []) (hwne : m.weights ≠ []) :
    ∃ c, m.predict x = Except.ok c ∧ c ∈ m.classes := by
  obtain ⟨c0, cs, hc⟩ := List.exists_cons_of_ne_nil hne
  obtain ⟨w0, ws, hw⟩ := List.exists_cons_of_ne_nil hwne
  have hz : m.classes.zip (m.weights.map (fun w => dot w x)) =
      (c0, dot w0 x) :: cs.zip (ws.map (fun w => dot w x)) := by
    rw [hc, hw]
    rfl
  obtain ⟨c, hcval⟩ :
      ∃ c, argmaxScore (m.classes.zip (m.weights.map (fun w => dot w x))) =
        some c := by
    rw [hz]
    exact ⟨_, rfl⟩
  refine ⟨c, ?_, ?_⟩
  · unfold SVCModel.predict
    rw [hcval]
  · obtain ⟨n, hmem⟩ := argmaxScore_mem hcval
    exact (List.of_mem_zip hmem).1

/-- A successful CountVectorizer fit carries exactly the built vocabulary. -/
theorem countVectFit_ok {docs : List String} {v : Vectorizer}
    (h : countVectFit docs = Except.ok v) : v = ⟨buildVocab docs⟩ := by
  unfold countVectFit at h
  by_cases he : buildVocab docs = []
  · simp [he] at h
  · simp [he] at h
    exact h.symm

/-- A successful LinearSVC fit carries exactly the distinct training labels
as classes, at least two of them, and a weight vector per class. -/
theorem fitLinearSVC_ok {dim : Nat} {rows : List (List Nat)}
    {ys : List String} {m : SVCModel}
    (h : fitLinearSVC dim rows ys = Except.ok m) :
    m.classes = ys.dedup ∧ 2 ≤ m.classes.length ∧ m.weights ≠ [] := by
  unfold fitLinearSVC at h
  by_cases hlen : ys.dedup.length < 2
  · simp [hlen] at h
  · simp only [hlen, if_false] at h
    injection h with h
    subst h
    refine ⟨rfl, Nat.le_of_not_lt hlen, ?_⟩
    intro hnil
    rw [List.map_eq_nil_iff] at hnil
    rw [hnil] at hlen
    exact hlen (by decide)

/-- What a successful fitting phase produces: the vectorizer carries the
vocabulary of the training-split utterances, and the model carries exactly the
distinct intents of the training split as classes, at least two of them, with
a weight vector per class. -/
theorem trainArtifacts_ok {d : List TrainingExample} {v : Vectorizer}
    {m : SVCModel} (h : trainArtifacts d = Except.ok (v, m)) :
    v = ⟨fittedVocab d⟩ ∧
    m.classes = ((trainSplitOf d).map (fun e => e.intent)).dedup ∧
    2 ≤ m.classes.length ∧ m.weights ≠ [] := by
  unfold trainArtifacts at h
  by_cases h0 : d = []
  · rw [if_pos h0] at h
    cases h
  · rw [if_neg h0] at h
    by_cases h1 : trainSplitOf d = []
    · rw [if_pos h1] at h
      cases h
    · rw [if_neg h1] at h
      split at h
      · cases h
      · next v1 hcv =>
        split at h
        · cases h
        · next m1 hfit =>
          injection h with hpair
          injection hpair with hveq hmeq
          subst hveq
          subst hmeq
          obtain ⟨hcls, hlen, hwne⟩ := fitLinearSVC_ok hfit
          exact ⟨countVectFit_ok hcv, hcls, hlen, hwne⟩

/-- When the store holds a vectorizer at the first path and a model at the
second, classify_utterance is exactly the in-memory transform-then-predict
composition. -/
theorem classify_eval {s : Store} {v : Vectorizer} {m : SVCModel}
    {vf mf u : String}
    (hv : s.read vf = Except.ok (Artifact.vect v))
    (hm : s.read mf = Except.ok (Artifact.model m)) :
    classify_utterance u vf mf s = m.predict (v.transform u) := by
  unfold classify_utterance
  rw [hv, hm]

/-- Unfolding equation of trainBody on parsed data. -/
theorem trainBody_data (d : List TrainingExample) (s : Store) :
    trainBody (TrainInput.data d) s =
      match trainArtifacts d with
      | Except.error e => (s, Except.error e)
      | Except.ok (v, m) =>
        match s.write vectorizerFile (Artifact.vect v) with
        | Except.error e => (s, Except.error e)
        | Except.ok s1 =>
          match s1.write modelFile (Artifact.model m) with
          | Except.error e => (s1, Except.error e)
          | Except.ok s2 => (s2, Except.ok successMessages) := rfl

/-- Characterization of a successful training run: the fitting phase
succeeded, both artifacts are on disk at the fixed paths afterwards, and
every later classify call equals the in-memory prediction of the fitted
pair. -/
theorem train_success_spec {d : List TrainingExample} {s : Store}
    (hok : ∃ msgs, (trainBody (TrainInput.data d) s).2 = Except.ok msgs) :
    ∃ v m, trainArtifacts d = Except.ok (v, m) ∧
      v = Vectorizer.mk (fittedVocab d) ∧
      m.classes = ((trainSplitOf d).map (fun e => e.intent)).dedup ∧
      2 ≤ m.classes.length ∧ m.weights ≠ [] ∧
      (train_linear_svc_model (TrainInput.data d) s).store.read vectorizerFile =
        Except.ok (Artifact.vect v) ∧
      (train_linear_svc_model (TrainInput.data d) s).store.read modelFile =
        Except.ok (Artifact.model m) ∧
      ∀ u, classify_utterance u vectorizerFile modelFile
          (train_linear_svc_model (TrainInput.data d) s).store =
        m.predict (v.transform u) := by
  obtain ⟨msgs, hmsgs⟩ := hok
  rw [trainBody_data] at hmsgs
  split at hmsgs
  · simp at hmsgs
  · next v m hA =>
    split at hmsgs
    · simp at hmsgs
    · next s1 hw1 =>
      split at hmsgs
      · simp at hmsgs
      · next s2 hw2 =>
        have hstore : (train_linear_svc_model (TrainInput.data d) s).store = s2 := by
          unfold train_linear_svc_model
          simp only [trainBody_data, hA, hw1, hw2]
        obtain ⟨hv, hcls, hlen, hwne⟩ := trainArtifacts_ok hA
        have hr2 : s2.read modelFile = Except.ok (Artifact.model m) :=
          read_after_write_same hw2
        have hr1 : s2.read vectorizerFile = Except.ok (Artifact.vect v) := by
          rw [read_after_write_other hw2 (by decide)]
          exact read_after_write_same hw1
        refine ⟨v, m, hA, hv, hcls, hlen, hwne, ?_, ?_, ?_⟩
        · rw [hstore]
          exact hr1
        · rw [hstore]
          exact hr2
        · intro u
          rw [hstore]
          exact classify_eval hr1 hr2

/-- After any successful training run, classifying any utterance yields some
label drawn from the distinct intents of the input data. -/
theorem classify_label_mem (d : List TrainingExample) (s : Store) (u : String)
    (hok : ∃ msgs, (trainBody (TrainInput.data d) s).2 = Except.ok msgs) :
    ∃ lbl, classify_utterance u vectorizerFile modelFile
        (train_linear_svc_model (TrainInput.data d) s).store = Except.ok lbl ∧
      lbl ∈ (d.map (fun e => e.intent)).dedup := by
  obtain ⟨v, m, hA, hv, hcls, hlen, hwne, hr1, hr2, hclassify⟩ :=
    train_success_spec hok
  have hne : m.classes ≠ [] := by
    intro hnil
    rw [hnil] at hlen
    exact absurd hlen (by decide)
  obtain ⟨c, hpred, hmem⟩ := predict_ok_mem m (v.transform u) hne hwne
  refine ⟨c, ?_, ?_⟩
  · rw [hclassify u, hpred]
  · rw [hcls, List.mem_dedup] at hmem
    rw [List.mem_dedup]
    obtain ⟨e, he, hei⟩ := List.mem_map.mp hmem
    exact List.mem_map.mpr ⟨e, mem_trainSplitOf he, hei⟩

/-! The claim theorems. -/

/-- C1: Label closure — after every successful training run, classifying any
input utterance against the produced artifacts returns an intent string that
is a member of the set of distinct intent values of the original training
data (in particular some label, never an empty or missing one). -/
theorem label_closure (d : List TrainingExample) (s : Store) (u : String)
    (hok : ∃ msgs, (trainBody (TrainInput.data d) s).2 = Except.ok msgs) :
    ∃ lbl, classify_utterance u vectorizerFile modelFile
        (train_linear_svc_model (TrainInput.data d) s).store = Except.ok lbl ∧
      lbl ∈ (d.map (fun e => e.intent)).dedup :=
  classify_label_mem d s u hok

/-- C1 witness: the observed seven-example dataset and the utterance of the
notebook session. -/
theorem label_closure_witness :
    ∃ lbl, classify_utterance "hey whats up Virtual Assistant" vectorizerFile
        modelFile
        (train_linear_svc_model (TrainInput.data observedData) emptyStore).store =
        Except.ok lbl ∧
      lbl ∈ (observedData.map (fun e => e.intent)).dedup :=
  label_closure observedData emptyStore "hey whats up Virtual Assistant"
    ⟨successMessages, rfl⟩

/-- C2: Unseen-token tolerance — for an utterance all of whose tokens are
absent from the fitted vocabulary, the vectorizer transform is the all-zero
vector (the unseen tokens contribute nothing), and classify_utterance still
returns some label from the training label set rather than failing. -/
theorem unseen_token_tolerance (d : List TrainingExample) (s : Store)
    (u : String)
    (hok : ∃ msgs, (trainBody (TrainInput.data d) s).2 = Except.ok msgs)
    (hunseen : ∀ t ∈ tokenize u, t ∉ fittedVocab d) :
    Vectorizer.transform ⟨fittedVocab d⟩ u =
      List.replicate (fittedVocab d).length 0 ∧
    ∃ lbl, classify_utterance u vectorizerFile modelFile
        (train_linear_svc_model (TrainInput.data d) s).store = Except.ok lbl ∧
      lbl ∈ (d.map (fun e => e.intent)).dedup := by
  constructor
  · unfold Vectorizer.transform
    refine List.eq_replicate_iff.mpr ⟨by simp, ?_⟩
    intro b hb
    obtain ⟨t, ht, hbt⟩ := List.mem_map.mp hb
    rw [← hbt]
    exact List.count_eq_zero.mpr (fun hmem => hunseen t hmem ht)
  · exact classify_label_mem d s u hok

/-- C2 witness: the probe utterance of the spec against the observed
dataset. -/
theorem unseen_token_tolerance_witness :
    Vectorizer.transform ⟨fittedVocab observedData⟩ "qqqzzzunknown" =
      List.replicate (fittedVocab observedData).length 0 ∧
    ∃ lbl, classify_utterance "qqqzzzunknown" vectorizerFile modelFile
        (train_linear_svc_model (TrainInput.data observedData) emptyStore).store =
        Except.ok lbl ∧
      lbl ∈ (observedData.map (fun e => e.intent)).dedup :=
  unseen_token_tolerance observedData emptyStore "qqqzzzunknown"
    ⟨successMessages, rfl⟩ (by decide)

/-- C3: Serialization round-trip — dumping any fitted vectorizer and model to
their artifact files and classifying through the loaded copies yields exactly
the prediction of the in-memory originals, on every probe utterance. -/
theorem serialization_round_trip (v : Vectorizer) (m : SVCModel) (s : Store)
    (u : String) (hv : vectorizerFile ∉ s.badPaths)
    (hm : modelFile ∉ s.badPaths) :
    ∃ s1 s2, s.write vectorizerFile (Artifact.vect v) = Except.ok s1 ∧
      s1.write modelFile (Artifact.model m) = Except.ok s2 ∧
      classify_utterance u vectorizerFile modelFile s2 =
        m.predict (v.transform u) := by
  have h1 : s.write vectorizerFile (Artifact.vect v) =
      Except.ok ⟨(vectorizerFile, Artifact.vect v) :: s.files, s.badPaths⟩ := by
    unfold Store.write
    rw [if_neg hv]
  have h2 : (Store.mk ((vectorizerFile, Artifact.vect v) :: s.files)
        s.badPaths).write modelFile (Artifact.model m) =
      Except.ok ⟨(modelFile, Artifact.model m) ::
        (vectorizerFile, Artifact.vect v) :: s.files, s.badPaths⟩ := by
    unfold Store.write
    rw [if_neg hm]
  refine ⟨_, _, h1, h2, ?_⟩
  refine classify_eval ?_ (read_after_write_same h2)
  rw [read_after_write_other h2 (by decide)]
  exact read_after_write_same h1

/-- C3 witness: a concrete fitted pair written into the empty store. -/
theorem serialization_round_trip_witness :
    ∃ s1 s2, emptyStore.write vectorizerFile
        (Artifact.vect ⟨["hi"]⟩) = Except.ok s1 ∧
      s1.write modelFile (Artifact.model ⟨["a", "b"], [[1], [0]]⟩) =
        Except.ok s2 ∧
      classify_utterance "hi" vectorizerFile modelFile s2 =
        SVCModel.predict ⟨["a", "b"], [[1], [0]]⟩
          (Vectorizer.transform ⟨["hi"]⟩ "hi") :=
  serialization_round_trip ⟨["hi"]⟩ ⟨["a", "b"], [[1], [0]]⟩ emptyStore "hi"
    (by decide) (by decide)

/-- C4: Determinism under the fixed split seed — two training runs on the same
input data, even started from different disk states, produce artifacts whose
predictions agree on every probe utterance. -/
theorem determinism_fixed_seed (d : List TrainingExample) (s1 s2 : Store)
    (u : String)
    (h1 : ∃ msgs, (trainBody (TrainInput.data d) s1).2 = Except.ok msgs)
    (h2 : ∃ msgs, (trainBody (TrainInput.data d) s2).2 = Except.ok msgs) :
    classify_utterance u vectorizerFile modelFile
        (train_linear_svc_model (TrainInput.data d) s1).store =
      classify_utterance u vectorizerFile modelFile
        (train_linear_svc_model (TrainInput.data d) s2).store := by
  obtain ⟨v, m, hA, -, -, -, -, -, -, hc1⟩ := train_success_spec h1
  obtain ⟨v2, m2, hA2, -, -, -, -, -, -, hc2⟩ := train_success_spec h2
  rw [hA] at hA2
  injection hA2 with hpair
  injection hpair with hveq hmeq
  rw [hc1 u, hc2 u, hveq, hmeq]

/-- C4 witness: the observed dataset trained from the empty store and from a
store already holding an unrelated artifact. -/
theorem determinism_fixed_seed_witness :
    classify_utterance "do you open tomorrow" vectorizerFile modelFile
        (train_linear_svc_model (TrainInput.data observedData) emptyStore).store =
      classify_utterance "do you open tomorrow" vectorizerFile modelFile
        (train_linear_svc_model (TrainInput.data observedData) junkStore).store :=
  determinism_fixed_seed observedData emptyStore junkStore
    "do you open tomorrow" ⟨successMessages, rfl⟩ ⟨successMessages, rfl⟩

/-- C5: Trainer failure policy — whenever any step of the training body fails,
whatever the failure kind (malformed input, empty data, fitting failure, or an
artifact write failure), the run reports exactly the one generic message, so
failure kinds are indistinguishable to the observer. -/
theorem trainer_failure_policy (inp : TrainInput) (s : Store)
    (hfail : ∃ e, (trainBody inp s).2 = Except.error e) :
    (train_linear_svc_model inp s).printed = [trainingErrorMessage] := by
  obtain ⟨e, he⟩ := hfail
  unfold train_linear_svc_model
  rcases h : trainBody inp s with ⟨s2, r⟩
  rw [h] at he
  cases r with
  | ok msgs => cases he
  | error e2 => rfl

/-- C5 witness: a malformed input file. -/
theorem trainer_failure_policy_witness :
    (train_linear_svc_model TrainInput.malformed emptyStore).printed =
      [trainingErrorMessage] :=
  trainer_failure_policy TrainInput.malformed emptyStore
    ⟨PyError.valueError, rfl⟩

/-- C6 counterexample: classify_utterance with no vectorizer artifact on disk
fails with the builtin FileNotFoundError propagating uncaught out of the
function, which is not the ArtifactLoadError the claim names; no
LoadError/ArtifactLoadError type exists in the code. -/
theorem missing_artifact_counterexample :
    classify_utterance "hello" vectorizerFile modelFile emptyStore =
      Except.error PyError.fileNotFoundError ∧
    PyError.fileNotFoundError ≠ PyError.artifactLoadError :=
  ⟨rfl, by decide⟩

/-- C6 (amended): calling classify_utterance with a nonexistent vectorizer
artifact path fails — it never returns a label — but the failure is the raw
FileNotFoundError raised by open() propagating out of the function, which
installs no handler and defines no LoadError/ArtifactLoadError. -/
theorem missing_artifact_behavior (u vfile mfile : String) (s : Store)
    (h : s.read vfile = Except.error PyError.fileNotFoundError) :
    classify_utterance u vfile mfile s =
      Except.error PyError.fileNotFoundError := by
  unfold classify_utterance
  rw [h]

/-- C6 witness: the empty store holds no artifact at the vectorizer path. -/
theorem missing_artifact_behavior_witness :
    classify_utterance "hello there" vectorizerFile modelFile emptyStore =
      Except.error PyError.fileNotFoundError :=
  missing_artifact_behavior "hello there" vectorizerFile modelFile emptyStore
    rfl

/-- C7 counterexample: training on the empty example sequence fails with the
pandas KeyError on the missing utterance column, swallowed by the blanket
handler — not with the EmptyDatasetError the claim names, a type the code
never defines or raises. -/
theorem empty_input_counterexample :
    (trainBody (TrainInput.data []) emptyStore).2 =
      Except.error PyError.keyError ∧
    PyError.keyError ≠ PyError.emptyDatasetError :=
  ⟨rfl, by decide⟩

/-- C7 (amended): training on an empty example sequence does fail before
anything is fitted — no artifacts are written and no degenerate model is
produced — but the failure is a KeyError swallowed by the blanket handler and
reported only as the one generic message, not a typed EmptyDatasetError. -/
theorem empty_input_behavior (s : Store) :
    train_linear_svc_model (TrainInput.data []) s =
      ⟨s, [trainingErrorMessage], none⟩ := rfl

/-- C8 counterexample: on the observed seven-example dataset the split is
5 train against 2 held-out, which is not exactly 75 percent train. -/
theorem split_ratio_counterexample :
    (trainTestSplit 0 observedData).1.length = 5 ∧
    4 * (trainTestSplit 0 observedData).1.length ≠ 3 * observedData.length := by
  constructor
  · rfl
  · decide

/-- C8 (amended): train_linear_svc_model partitions the input examples with
the library split under the hardcoded seed 0 and the library default held-out
fraction 0.25: the held-out part has ceil(n/4) examples, the training part the
remaining n - ceil(n/4), together a permutation of the input; the proportion
is exactly 75/25 when n is divisible by 4. Ratio and seed are constants inside
the function body, not exposed configuration. -/
theorem split_partition (d : List TrainingExample) :
    (trainTestSplit 0 d).2.length = (d.length + 3) / 4 ∧
    (trainTestSplit 0 d).1.length = d.length - (d.length + 3) / 4 ∧
    ((trainTestSplit 0 d).1 ++ (trainTestSplit 0 d).2).Perm d ∧
    (4 ∣ d.length → 4 * (trainTestSplit 0 d).2.length = d.length) := by
  have hlen : (shuffle 0 d).length = d.length := (shuffle_perm 0 d).length_eq
  have hle : (d.length + 3) / 4 ≤ d.length := by omega
  have h2 : (trainTestSplit 0 d).2.length = (d.length + 3) / 4 := by
    rw [trainTestSplit_eq]
    dsimp only
    rw [List.length_take, hlen]
    omega
  refine ⟨h2, ?_, trainTestSplit_append_perm 0 d, ?_⟩
  · rw [trainTestSplit_eq]
    dsimp only
    rw [List.length_drop, hlen]
  · intro hdvd
    rw [h2]
    omega

/-- C8 witness: on the eight-example input the held-out part has 2 of 8
examples, exactly one quarter. -/
theorem split_partition_witness :
    ((trainTestSplit 0 eightData).2.length = (eightData.length + 3) / 4 ∧
     (trainTestSplit 0 eightData).1.length =
       eightData.length - (eightData.length + 3) / 4 ∧
     ((trainTestSplit 0 eightData).1 ++ (trainTestSplit 0 eightData).2).Perm
       eightData) ∧
    4 * (trainTestSplit 0 eightData).2.length = eightData.length :=
  ⟨⟨(split_partition eightData).1, (split_partition eightData).2.1,
    (split_partition eightData).2.2.1⟩,
   (split_partition eightData).2.2.2 (by decide)⟩

/-- C9: train_linear_svc_model is a total function of its input and the disk
state — the bare except swallows every exception of the body — and the Python
return value is None on the success path and on the failure path alike, so a
caller can detect failure only through the printed text or the store. -/
theorem trainer_returns_none (inp : TrainInput) (s : Store) :
    (train_linear_svc_model inp s).retval = none := by
  unfold train_linear_svc_model
  rcases h : trainBody inp s with ⟨s2, r⟩
  cases r with
  | ok msgs => rfl
  | error e => rfl

/-- C10: the classifier is fitted only on the labels of the training split:
on every successful run the stored model carries exactly the distinct intents
of that split as its classes and every returned label lies in that set; and
there is an input on which training succeeds while that set is a strict
subset of the distinct intents of the whole input (the refund intent of
lostIntentData falls in the held-out quarter and can never be predicted). -/
theorem labels_from_train_split_only :
    (∀ (d : List TrainingExample) (s : Store) (u : String),
      (∃ msgs, (trainBody (TrainInput.data d) s).2 = Except.ok msgs) →
      ∃ m : SVCModel,
        (train_linear_svc_model (TrainInput.data d) s).store.read modelFile =
          Except.ok (Artifact.model m) ∧
        m.classes = ((trainSplitOf d).map (fun e => e.intent)).dedup ∧
        ∀ lbl, classify_utterance u vectorizerFile modelFile
            (train_linear_svc_model (TrainInput.data d) s).store =
            Except.ok lbl →
          lbl ∈ ((trainSplitOf d).map (fun e => e.intent)).dedup) ∧
    ∃ d : List TrainingExample,
      (∃ msgs, (trainBody (TrainInput.data d) emptyStore).2 =
        Except.ok msgs) ∧
      (∀ x ∈ ((trainSplitOf d).map (fun e => e.intent)).dedup,
        x ∈ (d.map (fun e => e.intent)).dedup) ∧
      ((trainSplitOf d).map (fun e => e.intent)).dedup ≠
        (d.map (fun e => e.intent)).dedup := by
  constructor
  · intro d s u hok
    obtain ⟨v, m, hA, hv, hcls, hlen, hwne, hr1, hr2, hclassify⟩ :=
      train_success_spec hok
    refine ⟨m, hr2, hcls, ?_⟩
    intro lbl hlbl
    rw [hclassify u] at hlbl
    rw [← hcls]
    exact predict_mem hlbl
  · exact ⟨lostIntentData, ⟨successMessages, rfl⟩, by decide, by decide⟩

/-- C10 witness: the observed dataset; its train split carries the three
intents, so the stored model class set is that of the split. -/
theorem labels_from_train_split_only_witness :
    ∃ m : SVCModel,
      (train_linear_svc_model
          (TrainInput.data observedData) emptyStore).store.read modelFile =
        Except.ok (Artifact.model m) ∧
      m.classes =
        ((trainSplitOf observedData).map (fun e => e.intent)).dedup ∧
      ∀ lbl, classify_utterance "hello" vectorizerFile modelFile
          (train_linear_svc_model
            (TrainInput.data observedData) emptyStore).store =
          Except.ok lbl →
        lbl ∈ ((trainSplitOf observedData).map (fun e => e.intent)).dedup :=
  labels_from_train_split_only.1 observedData emptyStore "hello"
    ⟨successMessages, rfl⟩

end UtteranceSVC
